import Mathlib

/-!
Shallow embedding of the session & credential lifecycle subsystem of the
filmmash-api repository (src/app/core/security.py, src/app/core/config.py,
src/app/domains/auth/...), together with theorems settling the claims of
the specification against this embedding.

Modelling conventions:
* timestamps are natural numbers (seconds); `datetime.now()` is an explicit
  `now : Nat` argument threaded through each operation;
* UUIDs are strings; freshly generated ids come from counters in the state;
* the salted argon2 hash (passlib `CryptContext.hash`, used by
  `PasswordSecurity.generate_password_hash`, `generate_token_hash` and
  `JWTService.hash_token`) is idealised as the injective pair
  (salt, secret): hashing the same secret with a different salt yields a
  different encoded string, and `CryptContext.verify` checks only the
  secret.  Fresh salts come from a counter in the state, mirroring the
  random per-call salt of argon2;
* a JWT is idealised as its claim payload paired with the signing key
  (HMAC is collision-free); `jwt.decode` follows PyJWT's documented
  validation: signature, then `exp`, then `aud` (a payload carrying an
  `aud` claim is rejected with InvalidAudienceError when the caller
  passes no `audience` argument);
* the relational store is the `users` / `sessions` lists inside
  `AuthState`; SQL UPDATE ... WHERE id = .. RETURNING is a map over the
  list followed by a lookup;
* Python exceptions become the `AuthError` inductive; exceptions that are
  not part of the domain taxonomy (re-raised SQLAlchemyError, an uncaught
  KeyError from a missing dict key, an AttributeError from calling a
  method the Session entity does not define) get their own constructors
  so that leaks are observable.
-/

namespace Filmmash

/-! ## Enums (src/app/domains/auth/enums.py) -/

inductive SessionStatus where
  | active
  | expired
  | invalid
  | revoked
deriving DecidableEq, Repr

inductive OAuthProvider where
  | local
  | google
  | microsoft
deriving DecidableEq, Repr

/-! ## Configuration (src/app/core/config.py), values in seconds -/

def ACCESS_TOKEN_EXPIRE_MINUTES : Nat := 15

def REFRESH_TOKEN_EXPIRE_DAYS : Nat := 60

def SESSION_EXPIRE_DAYS : Nat := 180

def access_token_timedelta : Nat := ACCESS_TOKEN_EXPIRE_MINUTES * 60

def refresh_token_timedelta : Nat := REFRESH_TOKEN_EXPIRE_DAYS * 86400

def session_default_timedelta : Nat := SESSION_EXPIRE_DAYS * 86400

def JWT_SECRET_KEY : String := "your_jwt_secret_key"

/-- Source `Settings.project_identifier`: PROJECT_NAME lowercased, spaces replaced. -/
def project_identifier : String := "filmmash-api"

/-- Source `Settings.project_client_identifier`. -/
def project_client_identifier : String := project_identifier ++ "-client"

/-! ## Salted one-way hash (src/app/core/security.py, PasswordSecurity) -/

/-- Idealised salted argon2 hash: the encoded string determines (and is
determined by) the random salt and the hashed secret. -/
structure HashVal (α : Type) where
  salt : Nat
  secret : α
deriving DecidableEq, Repr

/-- Source `CryptContext.hash` with an explicit salt (argon2 draws a fresh random
salt on every call; callers obtain `salt` from the state's salt counter). -/
def cryptHash {α : Type} (salt : Nat) (secret : α) : HashVal α :=
  ⟨salt, secret⟩

/-- Source `CryptContext.verify`: checks the secret against the hash, salt taken
from the encoded hash itself. -/
def cryptVerify {α : Type} [DecidableEq α] (secret : α) (h : HashVal α) : Bool :=
  decide (h.secret = secret)

/-! ## JWT (src/app/core/security.py, JWTService) -/

inductive TokenType where
  | access
  | refresh
deriving DecidableEq, Repr

def TokenType.value : TokenType → String
  | .access => "access"
  | .refresh => "refresh"

/-- The claim set put into every token by `JWTService.create_token`. -/
structure JwtPayload where
  sub : String
  exp : Nat
  iat : Nat
  iss : String
  aud : Option String
  type : String
  sid : String
deriving DecidableEq, Repr

/-- An idealised signed token: payload plus signing key (HMAC signatures
are modelled as injective in both). -/
structure Jwt where
  payload : JwtPayload
  key : String
deriving DecidableEq, Repr

/-- Dictionary view of the payload as `jwt.decode` returns it: the keys
are exactly the ones `create_token` wrote ("sub", "exp", "iat", "iss",
"aud", "type", "sid"); any other key access raises KeyError (`none`). -/
def JwtPayload.get (p : JwtPayload) : String → Option String
  | "sub" => some p.sub
  | "exp" => some (toString p.exp)
  | "iat" => some (toString p.iat)
  | "iss" => some p.iss
  | "aud" => p.aud
  | "type" => some p.type
  | "sid" => some p.sid
  | _ => none

/-- Source `JWTService.calculates_expiration_date`. -/
def calculates_expiration_date (token_type : TokenType) (now : Nat) : Nat :=
  match token_type with
  | .access => now + access_token_timedelta
  | .refresh => now + refresh_token_timedelta

/-- Source `JWTService.create_token`. -/
def create_token (user_id session_id : String) (token_type : TokenType) (now : Nat) : Jwt :=
  { payload :=
      { sub := user_id
        exp := calculates_expiration_date token_type now
        iat := now
        iss := project_identifier
        aud := some project_client_identifier
        type := token_type.value
        sid := session_id }
    key := JWT_SECRET_KEY }

def create_access_token (user_id session_id : String) (now : Nat) : Jwt :=
  create_token user_id session_id .access now

def create_refresh_token (user_id session_id : String) (now : Nat) : Jwt :=
  create_token user_id session_id .refresh now

inductive PyJwtError where
  | invalidSignature
  | expiredSignature
  | invalidAudience
deriving DecidableEq, Repr

/-- PyJWT audience validation (`_validate_aud`): when the caller passes no
`audience` argument but the payload carries a non-empty `aud` claim, the
token is rejected. -/
def audOk (aud : Option String) (audience : Option String) : Bool :=
  match audience, aud with
  | none, none => true
  | none, some a => a.isEmpty
  | some expected, some a => decide (a = expected)
  | some _, none => false

/-- Source `jwt.decode(token, key, algorithms=[...])` as PyJWT performs it:
signature first, then `exp` (`exp <= now` raises ExpiredSignatureError),
then `aud`.  No `issuer` argument is ever passed by the source, so `iss`
is not validated. -/
def pyjwtDecode (t : Jwt) (key : String) (audience : Option String) (now : Nat) :
    Except PyJwtError JwtPayload :=
  if t.key ≠ key then .error .invalidSignature
  else if t.payload.exp ≤ now then .error .expiredSignature
  else if ¬ audOk t.payload.aud audience then .error .invalidAudience
  else .ok t.payload

/-- The two `ValueError` outcomes of `JWTService.decode_token` /
`decode_access_token` / `decode_refresh_token`: "Token has expired"
(`expired`) versus "Invalid token" / "Invalid token type" (`invalid`). -/
inductive TokenError where
  | expired
  | invalid
deriving DecidableEq, Repr

/-- Source `JWTService.decode_token`: calls `jwt.decode` with the secret key and
no `audience` argument; ExpiredSignatureError becomes "Token has
expired", every other failure becomes "Invalid token". -/
def decode_token (t : Jwt) (now : Nat) : Except TokenError JwtPayload :=
  match pyjwtDecode t JWT_SECRET_KEY none now with
  | .ok p => .ok p
  | .error .expiredSignature => .error .expired
  | .error _ => .error .invalid

/-- Source `JWTService.decode_access_token`. -/
def decode_access_token (t : Jwt) (now : Nat) : Except TokenError JwtPayload :=
  match decode_token t now with
  | .error e => .error e
  | .ok p => if p.get ("type") ≠ some TokenType.access.value then .error .invalid else .ok p

/-- Source `JWTService.decode_refresh_token`. -/
def decode_refresh_token (t : Jwt) (now : Nat) : Except TokenError JwtPayload :=
  match decode_token t now with
  | .error e => .error e
  | .ok p => if p.get ("type") ≠ some TokenType.refresh.value then .error .invalid else .ok p

end Filmmash

namespace Filmmash

/-! ## Entities and store rows (src/app/domains/auth/entities.py,
src/app/domains/auth/models.py) -/

/-- Source `SessionDeviceInfo` (src/app/domains/auth/schemas/session_schemas.py);
`device_type` is kept as its string value. -/
structure DeviceInfo where
  user_agent : Option String := none
  ip_address : Option String := none
  device_type : Option String := none
  os : Option String := none
  browser : Option String := none
  app_version : Option String := none
deriving DecidableEq, Repr

/-- A session row as the store persists it (models.py `Session`):
`refresh_token_hash` is the salted hash of the raw refresh token, never
the token itself. -/
structure Session where
  id : String
  user_id : String
  refresh_token_hash : HashVal Jwt
  status : SessionStatus
  device_info : Option DeviceInfo
  expires_at : Nat
  last_used_at : Option Nat
  created_at : Nat
deriving DecidableEq, Repr

/-- entities.py `Session.is_expired`: `datetime.now(UTC) > expires_at`. -/
def Session.is_expired (s : Session) (now : Nat) : Bool :=
  decide (now > s.expires_at)

/-- entities.py `Session.is_active`. -/
def Session.is_active (s : Session) : Bool :=
  decide (s.status = SessionStatus.active)

/-- entities.py `Session.is_valid`: active and not expired. -/
def Session.is_valid (s : Session) (now : Nat) : Bool :=
  s.is_active && !(s.is_expired now)

/-- entities.py `User`. -/
structure User where
  id : String
  email : String
  password_hash : Option (HashVal String) := none
  username : Option String := none
  name : Option String := none
  oauth_provider : Option OAuthProvider := none
  oauth_provider_id : Option String := none
  is_active : Bool := true
  is_verified : Bool := false
deriving DecidableEq, Repr

/-- entities.py `User.has_oauth`. -/
def User.has_oauth (u : User) : Bool :=
  u.oauth_provider.isSome && u.oauth_provider_id.isSome

/-- entities.py `User.has_password`. -/
def User.has_password (u : User) : Bool :=
  u.password_hash.isSome

/-- entities.py `User.can_oauth_login`. -/
def User.can_oauth_login (u : User) : Bool :=
  u.oauth_provider.isSome && u.oauth_provider_id.isSome && u.is_active

/-- entities.py `User.can_local_login`: needs password AND username. -/
def User.can_local_login (u : User) : Bool :=
  u.password_hash.isSome && u.username.isSome && u.is_active

/-- entities.py `User.can_login`. -/
def User.can_login (u : User) : Bool :=
  if !u.is_active then false else u.can_local_login || u.can_oauth_login

/-! ## The shared store plus fresh-value counters -/

/-- The database (sole shared mutable state) plus the counters that stand
for uuid4 ids and for argon2's per-call random salts. -/
structure AuthState where
  users : List User := []
  sessions : List Session := []
  nextSalt : Nat := 0
  nextSessionId : Nat := 0
  nextUserId : Nat := 0
deriving DecidableEq, Repr

/-- Draw a fresh argon2 salt (each `CryptContext.hash` call salts anew). -/
def freshSalt (st : AuthState) : Nat × AuthState :=
  (st.nextSalt, { st with nextSalt := st.nextSalt + 1 })

/-- The status recorded in the store for session id `sid`. -/
def statusOf (st : AuthState) (sid : String) : Option SessionStatus :=
  (st.sessions.find? fun s => decide (s.id = sid)).map Session.status

/-! ## Python exceptions visible at the orchestrator boundary -/

inductive AuthError where
  | userNotFound
  | userPasswordNotConfigured
  | invalidPassword
  | invalidCredentials
  | userCannotLoseLoginMethod
  | sessionNotFound
  | sessionExpired
  | invalidSession
  | resourceAlreadyExists
  | resourceNotFound
  | storageError
  | keyError
  | attributeError
deriving DecidableEq, Repr

/-- The named error kinds of the spec's error taxonomy (spec section 7).
`storageError` (a re-raised SQLAlchemyError / IntegrityError), `keyError`
and `attributeError` are unnamed leaks. -/
def AuthError.isNamedDomainError : AuthError → Bool
  | .storageError => false
  | .keyError => false
  | .attributeError => false
  | _ => true

/-! ## SessionRepository (src/app/domains/auth/repositories/session_repository.py) -/

/-- Source `UpdateSessionDTO` (session_schemas.py); `model_dump(exclude_none=True)`
drops the `none` fields, so only `some` fields reach the UPDATE. -/
structure UpdateSessionDTO where
  refresh_token_hash : Option (HashVal Jwt) := none
  status : Option SessionStatus := none
  expires_at : Option Nat := none
  last_used_at : Option Nat := none
  device_info : Option DeviceInfo := none
deriving DecidableEq, Repr

/-- Apply the non-none DTO fields to a row (the SET clause of
`SessionRepository.update`). -/
def applySessionUpdate (dto : UpdateSessionDTO) (s : Session) : Session :=
  { s with
    refresh_token_hash := dto.refresh_token_hash.getD s.refresh_token_hash
    status := dto.status.getD s.status
    expires_at := dto.expires_at.getD s.expires_at
    last_used_at := match dto.last_used_at with
      | some v => some v
      | none => s.last_used_at
    device_info := match dto.device_info with
      | some v => some v
      | none => s.device_info }

/-- Source `SessionRepository.update`: UPDATE sessions SET .. WHERE id = sid
RETURNING; `none` when no row matched (the store is then unchanged). -/
def SessionRepository.update (st : AuthState) (sid : String) (dto : UpdateSessionDTO) :
    Option Session × AuthState :=
  let sessions' := st.sessions.map fun s =>
    if s.id = sid then applySessionUpdate dto s else s
  (sessions'.find? fun s => decide (s.id = sid), { st with sessions := sessions' })

/-- Source `SessionRepository.revoke`. -/
def SessionRepository.revoke (st : AuthState) (sid : String) :
    Option Session × AuthState :=
  SessionRepository.update st sid { status := some .revoked }

/-- Ascending `last_used_at` comparison used by the eviction ORDER BY
(PostgreSQL sorts NULLs last on ASC). -/
def lastUsedLE (a b : Session) : Bool :=
  match a.last_used_at, b.last_used_at with
  | some x, some y => decide (x ≤ y)
  | some _, none => true
  | none, some _ => false
  | none, none => true

def insertByLastUsed (s : Session) : List Session → List Session
  | [] => [s]
  | t :: ts => if lastUsedLE s t then s :: t :: ts else t :: insertByLastUsed s ts

/-- Source `ORDER BY last_used_at ASC` over a result set. -/
def sortByLastUsed : List Session → List Session
  | [] => []
  | s :: ss => insertByLastUsed s (sortByLastUsed ss)

/-- The WHERE clause shared by `get_active_by_user_id`,
`count_active_sessions_per_user` and the eviction SELECT: it filters on
`user_id` and `status == ACTIVE` only (`expires_at` is not consulted). -/
def isActiveFor (user_id : String) (s : Session) : Bool :=
  decide (s.user_id = user_id) && decide (s.status = SessionStatus.active)

/-- Source `SessionRepository.get_active_by_user_id`. -/
def SessionRepository.get_active_by_user_id (st : AuthState) (user_id : String) :
    List Session :=
  st.sessions.filter (isActiveFor user_id)

/-- Source `SessionRepository.count_active_sessions_per_user`. -/
def SessionRepository.count_active_sessions_per_user (st : AuthState) (user_id : String) :
    Nat :=
  (st.sessions.filter (isActiveFor user_id)).length

/-- The SELECT of `SessionRepository.free_active_sessions_limit`: active
sessions of the user, `ORDER BY last_used_at ASC OFFSET limit-1 LIMIT 1
FOR UPDATE SKIP LOCKED`; `locked` carries the rows currently locked by
another in-flight transaction (empty when the login runs alone). -/
def evictionCandidate (st : AuthState) (user_id : String) (limit : Nat)
    (locked : List String) : Option Session :=
  let rows := (sortByLastUsed (st.sessions.filter (isActiveFor user_id))).filter
    fun s => !(locked.contains s.id)
  (rows.drop (limit - 1)).head?

/-- Revoke every row with the given id (the UPDATE touches all matching
rows; with unique ids that is the single victim). -/
def revokeById (st : AuthState) (sid : String) : AuthState :=
  { st with sessions := st.sessions.map fun s =>
      if s.id = sid then { s with status := SessionStatus.revoked } else s }

/-- Source `SessionRepository.free_active_sessions_limit`: if the OFFSET limit-1
row exists, set its status to REVOKED, else do nothing. -/
def SessionRepository.free_active_sessions_limit (st : AuthState) (user_id : String)
    (limit : Nat) : AuthState :=
  match evictionCandidate st user_id limit [] with
  | none => st
  | some victim => revokeById st victim.id

end Filmmash

namespace Filmmash

/-! ## SessionService (src/app/domains/auth/services/session_service.py) -/

def max_active_sessions : Nat := 5

/-- The INSERT half of `SessionService.create`: add the new row (uuid4 id,
status ACTIVE as passed in the DTO), mint the refresh token bound to the
new id, store its salted hash (`JWTService.hash_token`) on the row,
flush.  Returns the session entity and the raw refresh token. -/
def insertNewSession (st : AuthState) (user_id : String)
    (expires_at last_used now : Nat) (device_info : Option DeviceInfo) :
    (Session × Jwt) × AuthState :=
  let sid := "session-" ++ toString st.nextSessionId
  let st1 := { st with nextSessionId := st.nextSessionId + 1 }
  let refresh_token := create_refresh_token user_id sid now
  let (salt, st2) := freshSalt st1
  let row : Session :=
    { id := sid
      user_id := user_id
      refresh_token_hash := cryptHash salt refresh_token
      status := SessionStatus.active
      device_info := device_info
      expires_at := expires_at
      last_used_at := some last_used
      created_at := now }
  ((row, refresh_token), { st2 with sessions := st2.sessions ++ [row] })

/-- Source `SessionService.create`: inside one transaction, evict via
`free_active_sessions_limit`, then INSERT the new row. -/
def SessionService.create (st : AuthState) (user_id : String)
    (expires_at last_used now : Nat) (device_info : Option DeviceInfo) :
    (Session × Jwt) × AuthState :=
  insertNewSession
    (SessionRepository.free_active_sessions_limit st user_id max_active_sessions)
    user_id expires_at last_used now device_info

/-- Source `SessionService.init_session`: create the session row (status ACTIVE,
expiry `now + SESSION_EXPIRE_DAYS`, `last_used_at = now`) and mint the
access token bound to its id; returns the raw `(access, refresh)` pair.
(The CreateSessionDTO validator `expires_at > now` holds by
construction here.) -/
def SessionService.init_session (st : AuthState) (user_id : String)
    (device_info : Option DeviceInfo) (now : Nat) : (Jwt × Jwt) × AuthState :=
  let ((session, refresh_token), st') :=
    SessionService.create st user_id (now + session_default_timedelta) now now device_info
  let access_token := create_access_token user_id session.id now
  ((access_token, refresh_token), st')

/-- Source `SessionService.revoke` (delegates to the repository). -/
def SessionService.revoke (st : AuthState) (session_id : String) :
    Option Session × AuthState :=
  SessionRepository.revoke st session_id

/-- Source `SessionService.mark_used`. -/
def SessionService.mark_used (st : AuthState) (session_id : String) (now : Nat) :
    Option Session × AuthState :=
  SessionRepository.update st session_id { last_used_at := some now }

/-- Source `SessionService.mark_expired`. -/
def SessionService.mark_expired (st : AuthState) (session_id : String) :
    Option Session × AuthState :=
  SessionRepository.update st session_id { status := some SessionStatus.expired }

/-- The `update_dto` that `SessionService.refresh` builds: rotated hash,
status ACTIVE, fresh `last_used_at` — and no `expires_at`. -/
def refreshUpdateDTO (new_refresh_token_hash : HashVal Jwt) (now : Nat) :
    UpdateSessionDTO :=
  { refresh_token_hash := some new_refresh_token_hash
    status := some SessionStatus.active
    last_used_at := some now }

/-- Source `SessionService.refresh(session, new_refresh_token_hash, time_delta)`:
raises SessionExpired when `session.expires_at < now`; otherwise UPDATEs
the row with the new hash, status ACTIVE and `last_used_at = now`.  The
`time_delta` parameter is accepted but never used by the source: the
UpdateSessionDTO it builds carries no `expires_at`. -/
def SessionService.refresh (st : AuthState) (session : Session)
    (new_refresh_token_hash : HashVal Jwt) (time_delta : Nat) (now : Nat) :
    Except AuthError (Session × AuthState) × AuthState :=
  if session.expires_at < now then (.error .sessionExpired, st)
  else
    let _ := time_delta
    match SessionRepository.update st session.id
      (refreshUpdateDTO new_refresh_token_hash now) with
    | (none, st') => (.error .sessionNotFound, st')
    | (some updated, st') => (.ok (updated, st'), st')

/-- The row `SessionService.refresh` persists on success: rotated hash,
status ACTIVE, fresh `last_used_at`; every other column — notably
`expires_at` — is left unchanged (specification-side abbreviation used in
the theorems below). -/
def rotatedSession (s : Session) (newHash : HashVal Jwt) (now : Nat) : Session :=
  { s with
    refresh_token_hash := newHash
    status := SessionStatus.active
    last_used_at := some now }

/-! ## UserService (src/app/domains/auth/services/user_service.py) and
UserRepository (src/app/domains/auth/repositories/user_repository.py) -/

/-- Source `UpdateUserDTO` (user_schemas.py): every field optional, `none`
meaning "not updated" (`model_dump(exclude_none=True)` drops it). -/
structure UpdateUserDTO where
  email : Option String := none
  password_hash : Option (HashVal String) := none
  username : Option String := none
  name : Option String := none
  oauth_provider : Option OAuthProvider := none
  oauth_provider_id : Option String := none
  is_active : Option Bool := none
  is_verified : Option Bool := none
deriving DecidableEq, Repr

/-- Source `ReplaceUserDTO` = `CreateUserDTO` (user_schemas.py): email required,
booleans with defaults, the rest optional. -/
structure ReplaceUserDTO where
  email : String
  password_hash : Option (HashVal String) := none
  username : Option String := none
  name : Option String := none
  oauth_provider : Option OAuthProvider := none
  oauth_provider_id : Option String := none
  is_active : Bool := true
  is_verified : Bool := false
deriving DecidableEq, Repr

/-- The `CreateUserDTO.validate_auth_method` pydantic validator (runs at
DTO construction): password or full oauth pair required, and a password
requires a username. -/
def ReplaceUserDTO.validated (d : ReplaceUserDTO) : Bool :=
  let has_password := d.password_hash.isSome
  let has_username := d.username.isSome
  let has_oauth := d.oauth_provider.isSome && d.oauth_provider_id.isSome
  (has_password || has_oauth) && (!has_password || has_username)

inductive UserPatch where
  | update (dto : UpdateUserDTO)
  | replace (dto : ReplaceUserDTO)
deriving DecidableEq, Repr

/-- Source `{**user.__dict__, **dto.model_dump(exclude_none=True)}` — the merge
`UserService.update` builds its `temp_user` from (both DTO kinds are
dumped with `exclude_none=True` there; the booleans of a ReplaceUserDTO
are never None, so they always land in the merge). -/
def mergeUser (u : User) : UserPatch → User
  | .update d =>
    { u with
      email := d.email.getD u.email
      password_hash := match d.password_hash with
        | some v => some v
        | none => u.password_hash
      username := match d.username with
        | some v => some v
        | none => u.username
      name := match d.name with
        | some v => some v
        | none => u.name
      oauth_provider := match d.oauth_provider with
        | some v => some v
        | none => u.oauth_provider
      oauth_provider_id := match d.oauth_provider_id with
        | some v => some v
        | none => u.oauth_provider_id
      is_active := d.is_active.getD u.is_active
      is_verified := d.is_verified.getD u.is_verified }
  | .replace d =>
    { u with
      email := d.email
      password_hash := match d.password_hash with
        | some v => some v
        | none => u.password_hash
      username := match d.username with
        | some v => some v
        | none => u.username
      name := match d.name with
        | some v => some v
        | none => u.name
      oauth_provider := match d.oauth_provider with
        | some v => some v
        | none => u.oauth_provider
      oauth_provider_id := match d.oauth_provider_id with
        | some v => some v
        | none => u.oauth_provider_id
      is_active := d.is_active
      is_verified := d.is_verified }

/-- The row `UserRepository.update` persists: UpdateUserDTO is dumped with
`exclude_none=True` (merge), ReplaceUserDTO with `exclude_none=False`
(every column overwritten, optional columns possibly set to NULL). -/
def persistUser (u : User) : UserPatch → User
  | .update d => mergeUser u (.update d)
  | .replace d =>
    { u with
      email := d.email
      password_hash := d.password_hash
      username := d.username
      name := d.name
      oauth_provider := d.oauth_provider
      oauth_provider_id := d.oauth_provider_id
      is_active := d.is_active
      is_verified := d.is_verified }

/-- Source `UserRepository.update`: UPDATE users WHERE id AND any column is
distinct RETURNING; when nothing is distinct the row is returned as it
stands — either way the stored content afterwards is `persistUser`. -/
def UserRepository.update (st : AuthState) (id : String) (patch : UserPatch) :
    Option User × AuthState :=
  let users' := st.users.map fun u => if u.id = id then persistUser u patch else u
  (users'.find? fun u => decide (u.id = id), { st with users := users' })

/-- Source `UserService.update`: load the user (`none` when absent), build the
merged `temp_user`, reject with UserCannotLoseLoginMethod when
`temp_user.can_login()` fails (before any persistence), else persist. -/
def UserService.update (st : AuthState) (id : String) (patch : UserPatch) :
    Except AuthError (Option User) × AuthState :=
  match st.users.find? fun u => decide (u.id = id) with
  | none => (.ok none, st)
  | some user =>
    let temp_user := mergeUser user patch
    if !temp_user.can_login then (.error .userCannotLoseLoginMethod, st)
    else
      match UserRepository.update st id patch with
      | (res, st') => (.ok res, st')

end Filmmash

namespace Filmmash

/-! ## AuthService (src/app/domains/auth/services/auth_service.py) -/

structure RegisterUserRequest where
  email : String
  username : String
  password : String
deriving DecidableEq, Repr

structure UserLoginRequest where
  email : String
  password : String
deriving DecidableEq, Repr

structure RegisterResponse where
  id : String
  email : String
  username : String
  access_token : Jwt
  refresh_token : Jwt
deriving DecidableEq, Repr

/-- Source `UserRepository.create`: INSERT INTO users; on a duplicate unique key
(email, username or oauth_provider_id) the IntegrityError is rolled back
and re-raised as-is (`except SQLAlchemyError: rollback; raise`) — it is
NOT translated into a domain error. -/
def UserRepository.create (st : AuthState) (email : String)
    (password_hash : Option (HashVal String)) (username : Option String) :
    Except AuthError User × AuthState :=
  if st.users.any (fun u =>
      decide (u.email = email) ||
      (username.isSome && decide (u.username = username))) then
    (.error .storageError, st)
  else
    let user : User :=
      { id := "user-" ++ toString st.nextUserId
        email := email
        password_hash := password_hash
        username := username }
    (.ok user, { st with users := st.users ++ [user], nextUserId := st.nextUserId + 1 })

/-- Source `AuthService.register`: hash the password, create the user, open a
session, return ids and the raw token pair. -/
def AuthService.register (st : AuthState) (dto : RegisterUserRequest)
    (device_info : Option DeviceInfo) (now : Nat) :
    Except AuthError RegisterResponse × AuthState :=
  let (salt, st1) := freshSalt st
  let password_hash := cryptHash salt dto.password
  match UserRepository.create st1 dto.email (some password_hash) (some dto.username) with
  | (.error e, st2) => (.error e, st2)
  | (.ok user, st2) =>
    let ((access_token, refresh_token), st3) :=
      SessionService.init_session st2 user.id device_info now
    (.ok { id := user.id, email := user.email, username := dto.username
           access_token := access_token, refresh_token := refresh_token }, st3)

/-- Source `AuthService.login`. -/
def AuthService.login (st : AuthState) (dto : UserLoginRequest)
    (device_info : Option DeviceInfo) (now : Nat) :
    Except AuthError (Jwt × Jwt) × AuthState :=
  match st.users.find? fun u => decide (u.email = dto.email) with
  | none => (.error .userNotFound, st)
  | some user =>
    match user.password_hash with
    | none => (.error .userPasswordNotConfigured, st)
    | some password_hash =>
      if !cryptVerify dto.password password_hash then (.error .invalidPassword, st)
      else
        let ((access_token, refresh_token), st') :=
          SessionService.init_session st user.id device_info now
        (.ok (access_token, refresh_token), st')

/-- Source `AuthService._validate_refresh_request`: re-hashes the presented raw
refresh token with `generate_token_hash` (a FRESH argon2 salt) and
string-compares that against the stored `session.refresh_token_hash`; on
mismatch it returns False.  Were the hashes ever equal, the next line
calls `session.matches_device_fingerprint(...)`, a method the Session
entity (entities.py) does not define, so Python would raise
AttributeError there. -/
def AuthService.validate_refresh_request (st : AuthState) (session : Session)
    (current_user_id : String) (refresh_token : Jwt)
    (device_info : Option DeviceInfo) : Except AuthError Bool × AuthState :=
  let _ := (current_user_id, device_info)
  let (salt, st1) := freshSalt st
  let current_token_hash := cryptHash salt refresh_token
  if session.refresh_token_hash ≠ current_token_hash then (.ok false, st1)
  else (.error .attributeError, st1)

/-- Source `AuthService.refresh_session`: validate; on False revoke the session
and raise InvalidSession; on True mint a fresh pair, hash the new refresh
token, and call `SessionService.refresh` with
`settings.refresh_token_timedelta`. -/
def AuthService.refresh_session (st : AuthState) (current_user : User)
    (current_session : Session) (refresh_token : Jwt)
    (device_info : Option DeviceInfo) (now : Nat) :
    Except AuthError (Jwt × Jwt) × AuthState :=
  match AuthService.validate_refresh_request st current_session current_user.id
      refresh_token device_info with
  | (.error e, st1) => (.error e, st1)
  | (.ok false, st1) =>
    let (_, st2) := SessionService.revoke st1 current_session.id
    (.error .invalidSession, st2)
  | (.ok true, st1) =>
    let access_token := create_access_token current_session.user_id current_session.id now
    let new_refresh_token := create_refresh_token current_session.user_id current_session.id now
    let (salt, st2) := freshSalt st1
    let new_refresh_token_hash := cryptHash salt new_refresh_token
    match SessionService.refresh st2 current_session new_refresh_token_hash
        refresh_token_timedelta now with
    | (.error e, st3) => (.error e, st3)
    | (.ok _, st3) => (.ok (access_token, new_refresh_token), st3)

/-- Source `AuthService.load_current_user_session`: decode the access token (any
decode failure → InvalidCredentials), then read `payload["user_id"]` and
`payload["session_id"]` — keys `create_token` never writes (it writes
"sub"/"sid"), so a successfully decoded own token would die with an
uncaught KeyError (`except ValueError` does not catch it); then user,
`can_login`, session, `is_valid` and the cross-check. -/
def AuthService.load_current_user_session (st : AuthState) (access_token : Jwt)
    (now : Nat) : Except AuthError (User × Session) :=
  match decode_access_token access_token now with
  | .error _ => .error .invalidCredentials
  | .ok payload =>
    match payload.get ("user_id"), payload.get ("session_id") with
    | some user_id, some session_id =>
      match st.users.find? fun u => decide (u.id = user_id) with
      | none => .error .userNotFound
      | some user =>
        if !user.can_login then .error .invalidCredentials
        else
          match st.sessions.find? fun s => decide (s.id = session_id) with
          | none => .error .sessionNotFound
          | some session =>
            if !session.is_valid now then .error .invalidSession
            else if user_id ≠ session.user_id then .error .invalidCredentials
            else .ok (user, session)
    | _, _ => .error .keyError

/-- Source `AuthService.logout`: revoke the current session. -/
def AuthService.logout (st : AuthState) (user : User) (session : Session) :
    AuthState :=
  let _ := user
  (SessionService.revoke st session.id).2

/-! ## Session-lifecycle operations as a step relation (for the claims
quantifying over operation sequences) -/

inductive SessionOp where
  | initSession (user_id : String) (device_info : Option DeviceInfo) (now : Nat)
  | refreshOp (session_id : String) (new_hash : HashVal Jwt) (time_delta now : Nat)
  | revokeOp (session_id : String)
  | markExpired (session_id : String)
  | markUsed (session_id : String) (now : Nat)
  | logoutOp (session_id : String)
deriving DecidableEq, Repr

/-- One session-lifecycle operation against the store.  `refreshOp` reads
the current row (as the orchestrator does via `get_by_id`) and hands it to
`SessionService.refresh`. -/
def stepOp (st : AuthState) : SessionOp → AuthState
  | .initSession user_id device_info now =>
    (SessionService.init_session st user_id device_info now).2
  | .refreshOp session_id new_hash time_delta now =>
    match st.sessions.find? fun s => decide (s.id = session_id) with
    | none => st
    | some session => (SessionService.refresh st session new_hash time_delta now).2
  | .revokeOp session_id => (SessionService.revoke st session_id).2
  | .markExpired session_id => (SessionService.mark_expired st session_id).2
  | .markUsed session_id now => (SessionService.mark_used st session_id now).2
  | .logoutOp session_id => (SessionService.revoke st session_id).2

def SessionOp.isRefresh : SessionOp → Bool
  | .refreshOp _ _ _ _ => true
  | _ => false

end Filmmash

namespace Filmmash

/-! ## Login sequences (sequential and two-transaction concurrent model,
spec section 5) -/

structure LoginEvent where
  user_id : String
  device_info : Option DeviceInfo
  now : Nat
deriving DecidableEq, Repr

/-- The session-creation effect of one completed login (`init_session`,
the part of `AuthService.login` / `register` that touches the session
store). -/
def loginStep (st : AuthState) (e : LoginEvent) : AuthState :=
  (SessionService.init_session st e.user_id e.device_info e.now).2

/-- The eviction SELECT of one in-flight transaction under
`FOR UPDATE SKIP LOCKED`: rows locked by another uncommitted transaction
are skipped (not waited for and not replaced); the chosen victim is
revoked and added to the lock set. -/
def evictStepLocked (st : AuthState) (user_id : String) (limit : Nat)
    (locked : List String) : AuthState × List String :=
  match evictionCandidate st user_id limit locked with
  | none => (st, locked)
  | some victim => (revokeById st victim.id, victim.id :: locked)

/-- Two concurrent logins for the same user interleaved as spec section 5
describes: T1 runs its eviction select (locking its victim), T2 runs its
eviction select while T1 still holds the lock (SKIP LOCKED skips the
victim), then both transactions INSERT their new session and commit. -/
def twoConcurrentLogins (st : AuthState) (user_id : String)
    (d1 d2 : Option DeviceInfo) (now : Nat) : AuthState :=
  let (stA, locked) := evictStepLocked st user_id max_active_sessions []
  let (stB, _) := evictStepLocked stA user_id max_active_sessions locked
  let (_, stC) :=
    insertNewSession stB user_id (now + session_default_timedelta) now now d1
  let (_, stD) :=
    insertNewSession stC user_id (now + session_default_timedelta) now now d2
  stD

/-! ## Concrete scenario data used by the closed theorems -/

def exDevice : DeviceInfo := { os := some ("linux"), browser := some ("firefox") }

/-- The registration scenario of spec section 8: register
alice@example.com / alice / secret123 (from an empty store, at t=100). -/
def exRegister : Except AuthError RegisterResponse × AuthState :=
  AuthService.register {} ⟨"alice@example.com", "alice", "secret123"⟩ (some exDevice) 100

def exUser : User :=
  { id := "user-0"
    email := "alice@example.com"
    password_hash := some (cryptHash 0 ("secret123"))
    username := some ("alice") }

def exRefreshToken : Jwt := create_refresh_token ("user-0") ("session-0") 100

def exAccessToken : Jwt := create_access_token ("user-0") ("session-0") 100

/-- The session row `init_session` created during `exRegister` (its
refresh-token hash was produced with salt 1; salt 0 went to the password
hash). -/
def exSession : Session :=
  { id := "session-0"
    user_id := "user-0"
    refresh_token_hash := cryptHash 1 exRefreshToken
    status := SessionStatus.active
    device_info := some exDevice
    expires_at := 100 + session_default_timedelta
    last_used_at := some 100
    created_at := 100 }

/-- The store right after `exRegister`. -/
def exState : AuthState :=
  { users := [exUser]
    sessions := [exSession]
    nextSalt := 2
    nextSessionId := 1
    nextUserId := 1 }

/-- An active session for the eviction scenarios: id "s<n>",
`last_used_at = lu`, owned by "u1". -/
def mkSess (n lu : Nat) : Session :=
  { id := "s" ++ toString n
    user_id := "u1"
    refresh_token_hash := cryptHash (100 + n) (create_refresh_token ("u1") ("s" ++ toString n) 0)
    status := SessionStatus.active
    device_info := none
    expires_at := 1000000
    last_used_at := some lu
    created_at := 0 }

/-- The state in which user u1 already has the limit (5) of active sessions, with
`last_used_at` values 1..5 (s1 is the least-recently-used, s5 the
most-recently-used). -/
def fiveActiveState : AuthState :=
  { sessions := [mkSess 1 1, mkSess 2 2, mkSess 3 3, mkSess 4 4, mkSess 5 5]
    nextSalt := 200
    nextSessionId := 10 }

/-- A revoked but not yet time-expired session (for the un-revoke
counterexample). -/
def revokedSession : Session :=
  { id := "r1"
    user_id := "u1"
    refresh_token_hash := cryptHash 0 (create_refresh_token ("u1") ("r1") 0)
    status := SessionStatus.revoked
    device_info := none
    expires_at := 100
    last_used_at := some 10
    created_at := 0 }

def revokedState : AuthState :=
  { sessions := [revokedSession], nextSalt := 1 }

/-- An active session whose absolute expiry (100) will be in the past for
the C5/C10 scenarios. -/
def staleSession : Session :=
  { id := "t1"
    user_id := "u1"
    refresh_token_hash := cryptHash 0 (create_refresh_token ("u1") ("t1") 0)
    status := SessionStatus.active
    device_info := none
    expires_at := 100
    last_used_at := some 10
    created_at := 0 }

def staleState : AuthState :=
  { sessions := [staleSession], nextSalt := 1 }

/-- A stored user with neither password nor OAuth credential (a store
that already violates the login-method invariant), for the C8 rejection
path. -/
def bareUser : User :=
  { id := "bob", email := "bob@example.com" }

def bareState : AuthState :=
  { users := [bareUser] }

/-- A correctly signed, unexpired access-type token carrying no aud claim
(as an external caller holding the shared secret could mint): it passes
`decode_access_token`, after which the payload has no "user_id" key. -/
def audlessToken : Jwt :=
  { payload :=
      { sub := "user-0"
        exp := 1000
        iat := 0
        iss := project_identifier
        aud := none
        type := "access"
        sid := "session-0" }
    key := JWT_SECRET_KEY }

/-- The registration session as it would look if the fresh salt drawn
during `generate_token_hash` collided with the stored one — the only
input on which the hash string comparison succeeds and control reaches
the fingerprint branch. -/
def collidingSession : Session :=
  { exSession with refresh_token_hash := cryptHash 2 exRefreshToken }

end Filmmash

namespace Filmmash

/-! ## Helper lemmas about the store primitives -/

lemma find?_map_key {α : Type} (key : α → String) (g : α → α)
    (hg : ∀ x, key (g x) = key x) (k : String) (l : List α) :
    ((l.map g).find? fun x => decide (key x = k)) =
      (l.find? fun x => decide (key x = k)).map g := by
  induction l with
  | nil => rfl
  | cons a t ih =>
    by_cases h : key a = k
    · rw [List.map_cons, List.find?_cons_of_pos _ (by simp [hg, h]),
        List.find?_cons_of_pos _ (by simp [h])]
      rfl
    · rw [List.map_cons, List.find?_cons_of_neg _ (by simp [hg, h]),
        List.find?_cons_of_neg _ (by simp [h]), ih]

lemma find?_append_left {α : Type} (l₁ l₂ : List α) (p : α → Bool) (x : α)
    (h : l₁.find? p = some x) : (l₁ ++ l₂).find? p = some x := by
  induction l₁ with
  | nil => simp [List.find?] at h
  | cons a t ih =>
    cases hp : p a with
    | true =>
      rw [List.find?_cons_of_pos _ hp] at h
      rw [List.cons_append, List.find?_cons_of_pos _ hp]
      exact h
    | false =>
      rw [List.find?_cons_of_neg _ (by simp [hp])] at h
      rw [List.cons_append, List.find?_cons_of_neg _ (by simp [hp])]
      exact ih h

lemma filter_length_map_le {α : Type} (g : α → α) (p : α → Bool) (l : List α)
    (hp : ∀ x ∈ l, p (g x) = true → p x = true) :
    ((l.map g).filter p).length ≤ (l.filter p).length := by
  induction l with
  | nil => exact Nat.le_refl _
  | cons a t ih =>
    have ht : ∀ x ∈ t, p (g x) = true → p x = true := fun x hx => hp x (List.mem_cons_of_mem _ hx)
    cases hga : p (g a) with
    | true =>
      have hpa : p a = true := hp a (List.mem_cons_self _ _) hga
      simp only [List.map_cons, List.filter_cons, hga, hpa, if_true, List.length_cons]
      exact Nat.succ_le_succ (ih ht)
    | false =>
      cases hpa : p a with
      | true =>
        simp only [List.map_cons, List.filter_cons, hga, hpa, if_true, if_false,
          List.length_cons]
        exact Nat.le_succ_of_le (ih ht)
      | false =>
        simp only [List.map_cons, List.filter_cons, hga, hpa, if_false]
        exact ih ht

lemma filter_length_map_lt {α : Type} (g : α → α) (p : α → Bool) (l : List α)
    (hp : ∀ x ∈ l, p (g x) = true → p x = true)
    (x : α) (hx : x ∈ l) (hpx : p x = true) (hgx : p (g x) = false) :
    ((l.map g).filter p).length < (l.filter p).length := by
  induction l with
  | nil => cases hx
  | cons a t ih =>
    have ht : ∀ y ∈ t, p (g y) = true → p y = true := fun y hy => hp y (List.mem_cons_of_mem _ hy)
    rcases List.mem_cons.mp hx with hax | hxt
    · subst hax
      simp only [List.map_cons, List.filter_cons, hgx, hpx, if_true, if_false,
        List.length_cons]
      exact Nat.lt_succ_of_le (filter_length_map_le g p t ht)
    · cases hga : p (g a) with
      | true =>
        have hpa : p a = true := hp a (List.mem_cons_self _ _) hga
        simp only [List.map_cons, List.filter_cons, hga, hpa, if_true, List.length_cons]
        exact Nat.succ_lt_succ (ih ht hxt)
      | false =>
        cases hpa : p a with
        | true =>
          simp only [List.map_cons, List.filter_cons, hga, hpa, if_true, if_false,
            List.length_cons]
          exact Nat.lt_succ_of_lt (ih ht hxt)
        | false =>
          simp only [List.map_cons, List.filter_cons, hga, hpa, if_false]
          exact ih ht hxt

lemma mem_insertByLastUsed {t s : Session} {l : List Session} :
    t ∈ insertByLastUsed s l ↔ t = s ∨ t ∈ l := by
  induction l with
  | nil => simp [insertByLastUsed]
  | cons a r ih =>
    unfold insertByLastUsed
    by_cases h : lastUsedLE s a = true
    · rw [if_pos h]
      simp only [List.mem_cons]
    · rw [if_neg h]
      simp only [List.mem_cons, ih]
      tauto

lemma length_insertByLastUsed (s : Session) (l : List Session) :
    (insertByLastUsed s l).length = l.length + 1 := by
  induction l with
  | nil => rfl
  | cons a r ih =>
    by_cases h : lastUsedLE s a
    · simp [insertByLastUsed, h]
    · simp [insertByLastUsed, h, ih]

lemma mem_sortByLastUsed {t : Session} {l : List Session} :
    t ∈ sortByLastUsed l ↔ t ∈ l := by
  induction l with
  | nil => simp [sortByLastUsed]
  | cons a r ih =>
    simp only [sortByLastUsed, mem_insertByLastUsed, List.mem_cons, ih]

lemma length_sortByLastUsed (l : List Session) :
    (sortByLastUsed l).length = l.length := by
  induction l with
  | nil => rfl
  | cons a r ih => simp [sortByLastUsed, length_insertByLastUsed, ih]

lemma evictionCandidate_no_locks (st : AuthState) (u : String) (limit : Nat) :
    evictionCandidate st u limit [] =
      ((sortByLastUsed (st.sessions.filter (isActiveFor u))).drop (limit - 1)).head? := by
  unfold evictionCandidate
  rw [List.filter_eq_self.mpr]
  intro s _
  simp

lemma head?_mem {α : Type} {l : List α} {x : α} (h : l.head? = some x) : x ∈ l := by
  cases l with
  | nil => cases h
  | cons a t =>
    simp only [List.head?] at h
    cases h
    exact List.mem_cons_self _ _

lemma evictionCandidate_props (st : AuthState) (u : String) (limit : Nat) (v : Session)
    (h : evictionCandidate st u limit [] = some v) :
    v ∈ st.sessions ∧ isActiveFor u v = true := by
  rw [evictionCandidate_no_locks] at h
  have hv : v ∈ sortByLastUsed (st.sessions.filter (isActiveFor u)) :=
    List.drop_subset _ _ (head?_mem h)
  have hv' : v ∈ st.sessions.filter (isActiveFor u) := mem_sortByLastUsed.mp hv
  exact ⟨(List.mem_filter.mp hv').1, (List.mem_filter.mp hv').2⟩

end Filmmash

namespace Filmmash

lemma statusOf_map (st : AuthState) (g : Session → Session)
    (hg : ∀ s, (g s).id = s.id) (sid : String) :
    statusOf { st with sessions := st.sessions.map g } sid =
      ((st.sessions.find? fun s => decide (s.id = sid)).map g).map Session.status := by
  unfold statusOf
  rw [show ({ st with sessions := st.sessions.map g } : AuthState).sessions
      = st.sessions.map g from rfl]
  rw [find?_map_key Session.id g hg sid]

lemma statusOf_map_not_active (st : AuthState) (g : Session → Session)
    (hg : ∀ s, (g s).id = s.id)
    (hstat : ∀ s, s.status ≠ SessionStatus.active → (g s).status ≠ SessionStatus.active)
    (sid : String) (h : statusOf st sid ≠ some SessionStatus.active) :
    statusOf { st with sessions := st.sessions.map g } sid ≠ some SessionStatus.active := by
  rw [statusOf_map st g hg sid]
  cases hfind : st.sessions.find? (fun s => decide (s.id = sid)) with
  | none => simp
  | some s =>
    unfold statusOf at h
    rw [hfind] at h
    simp only [Option.map_some']
    intro hc
    exact hstat s (fun he => h (by simp [he])) (Option.some.inj hc)

lemma statusOf_map_isSome (st : AuthState) (g : Session → Session)
    (hg : ∀ s, (g s).id = s.id) (sid : String)
    (h : (statusOf st sid).isSome) :
    (statusOf { st with sessions := st.sessions.map g } sid).isSome := by
  rw [statusOf_map st g hg sid]
  unfold statusOf at h
  cases hfind : st.sessions.find? (fun s => decide (s.id = sid)) with
  | none => rw [hfind] at h; cases h
  | some s => simp

lemma statusOf_counters (st : AuthState) (a b c : Nat) (sid : String) :
    statusOf { st with nextSalt := a, nextSessionId := b, nextUserId := c } sid =
      statusOf st sid := rfl

lemma sessions_insertNewSession (st : AuthState) (uid : String) (e l n : Nat)
    (d : Option DeviceInfo) :
    ∃ row, (insertNewSession st uid e l n d).2.sessions = st.sessions ++ [row] ∧
      row.user_id = uid ∧ row.status = SessionStatus.active :=
  ⟨_, rfl, rfl, rfl⟩

lemma statusOf_insertNewSession (st : AuthState) (uid : String) (e l n : Nat)
    (d : Option DeviceInfo) (sid : String) (h : (statusOf st sid).isSome) :
    statusOf (insertNewSession st uid e l n d).2 sid = statusOf st sid := by
  obtain ⟨row, hrow, -, -⟩ := sessions_insertNewSession st uid e l n d
  unfold statusOf at h ⊢
  rw [hrow]
  cases hfind : st.sessions.find? (fun s => decide (s.id = sid)) with
  | none => rw [hfind] at h; cases h
  | some s => rw [find?_append_left _ _ _ _ hfind]

lemma repoUpdate_snd (st : AuthState) (tid : String) (dto : UpdateSessionDTO) :
    (SessionRepository.update st tid dto).2 =
      { st with sessions := st.sessions.map fun s =>
          if s.id = tid then applySessionUpdate dto s else s } := rfl

lemma revokeById_eq_map (st : AuthState) (sid : String) :
    revokeById st sid =
      { st with sessions := st.sessions.map fun s =>
          if s.id = sid then { s with status := SessionStatus.revoked } else s } := rfl

lemma applySessionUpdate_id (dto : UpdateSessionDTO) (s : Session) :
    (applySessionUpdate dto s).id = s.id := rfl

lemma applySessionUpdate_status (dto : UpdateSessionDTO) (s : Session) :
    (applySessionUpdate dto s).status = dto.status.getD s.status := rfl

lemma statusOf_repoUpdate_not_active (st : AuthState) (tid : String)
    (dto : UpdateSessionDTO) (sid : String)
    (hdto : dto.status ≠ some SessionStatus.active)
    (h : statusOf st sid ≠ some SessionStatus.active) :
    statusOf (SessionRepository.update st tid dto).2 sid ≠ some SessionStatus.active := by
  rw [repoUpdate_snd]
  apply statusOf_map_not_active
  · intro s
    by_cases hid : s.id = tid
    · rw [if_pos hid, applySessionUpdate_id]
    · rw [if_neg hid]
  · intro s hs
    by_cases hid : s.id = tid
    · rw [if_pos hid, applySessionUpdate_status]
      cases hd : dto.status with
      | none => simpa [hd] using hs
      | some v =>
        simp only [hd, Option.getD_some]
        intro hv
        exact hdto (by rw [hd, hv])
    · rw [if_neg hid]
      exact hs
  · exact h

lemma statusOf_repoUpdate_isSome (st : AuthState) (tid : String)
    (dto : UpdateSessionDTO) (sid : String)
    (h : (statusOf st sid).isSome) :
    (statusOf (SessionRepository.update st tid dto).2 sid).isSome := by
  rw [repoUpdate_snd]
  apply statusOf_map_isSome
  · intro s
    by_cases hid : s.id = tid
    · rw [if_pos hid, applySessionUpdate_id]
    · rw [if_neg hid]
  · exact h

lemma statusOf_free_active_not_active (st : AuthState) (u : String) (limit : Nat)
    (sid : String) (h : statusOf st sid ≠ some SessionStatus.active) :
    statusOf (SessionRepository.free_active_sessions_limit st u limit) sid
      ≠ some SessionStatus.active := by
  unfold SessionRepository.free_active_sessions_limit
  cases hc : evictionCandidate st u limit [] with
  | none => exact h
  | some v =>
    show statusOf (revokeById st v.id) sid ≠ some SessionStatus.active
    rw [revokeById_eq_map]
    apply statusOf_map_not_active
    · intro s
      by_cases hid : s.id = v.id
      · rw [if_pos hid]
      · rw [if_neg hid]
    · intro s hs
      by_cases hid : s.id = v.id
      · rw [if_pos hid]
        simp
      · rw [if_neg hid]
        exact hs
    · exact h

lemma statusOf_free_active_isSome (st : AuthState) (u : String) (limit : Nat)
    (sid : String) (h : (statusOf st sid).isSome) :
    (statusOf (SessionRepository.free_active_sessions_limit st u limit) sid).isSome := by
  unfold SessionRepository.free_active_sessions_limit
  cases hc : evictionCandidate st u limit [] with
  | none => exact h
  | some v =>
    show (statusOf (revokeById st v.id) sid).isSome
    rw [revokeById_eq_map]
    apply statusOf_map_isSome
    · intro s
      by_cases hid : s.id = v.id
      · rw [if_pos hid]
      · rw [if_neg hid]
    · exact h

end Filmmash

namespace Filmmash

/-! ## Counting lemmas for the per-user active-session cap -/

lemma count_eq (st : AuthState) (u : String) :
    SessionRepository.count_active_sessions_per_user st u =
      (st.sessions.filter (isActiveFor u)).length := rfl

lemma count_free_active_le (st : AuthState) (w u : String) (limit : Nat) :
    SessionRepository.count_active_sessions_per_user
        (SessionRepository.free_active_sessions_limit st w limit) u ≤
      SessionRepository.count_active_sessions_per_user st u := by
  unfold SessionRepository.free_active_sessions_limit
  cases hc : evictionCandidate st w limit [] with
  | none => exact Nat.le_refl _
  | some v =>
    show SessionRepository.count_active_sessions_per_user (revokeById st v.id) u ≤ _
    rw [count_eq, count_eq, revokeById_eq_map]
    apply filter_length_map_le
    intro x _ hpx
    by_cases hid : x.id = v.id
    · rw [if_pos hid] at hpx
      simp [isActiveFor] at hpx
    · rwa [if_neg hid] at hpx

lemma count_free_active_lt (st : AuthState) (u : String) (limit : Nat)
    (hpos : 0 < limit)
    (h : limit ≤ SessionRepository.count_active_sessions_per_user st u) :
    SessionRepository.count_active_sessions_per_user
        (SessionRepository.free_active_sessions_limit st u limit) u <
      SessionRepository.count_active_sessions_per_user st u := by
  have hlen : limit - 1 < (sortByLastUsed (st.sessions.filter (isActiveFor u))).length := by
    rw [length_sortByLastUsed, ← count_eq]
    omega
  have hne :
      (sortByLastUsed (st.sessions.filter (isActiveFor u))).drop (limit - 1) ≠ [] := by
    intro hnil
    have := List.length_drop (limit - 1) (sortByLastUsed (st.sessions.filter (isActiveFor u)))
    rw [hnil] at this
    simp at this
    omega
  obtain ⟨v, hv⟩ : ∃ v,
      ((sortByLastUsed (st.sessions.filter (isActiveFor u))).drop (limit - 1)).head? =
        some v := by
    cases hd : (sortByLastUsed (st.sessions.filter (isActiveFor u))).drop (limit - 1) with
    | nil => exact absurd hd hne
    | cons a t => exact ⟨a, rfl⟩
  have hcand : evictionCandidate st u limit [] = some v := by
    rw [evictionCandidate_no_locks]
    exact hv
  have hvprops := evictionCandidate_props st u limit v hcand
  unfold SessionRepository.free_active_sessions_limit
  rw [hcand]
  show SessionRepository.count_active_sessions_per_user (revokeById st v.id) u < _
  rw [count_eq, count_eq, revokeById_eq_map]
  apply filter_length_map_lt _ _ _ _ v hvprops.1 hvprops.2
  · rw [if_pos rfl]
    simp [isActiveFor]
  · intro x _ hpx
    by_cases hid : x.id = v.id
    · rw [if_pos hid] at hpx
      simp [isActiveFor] at hpx
    · rwa [if_neg hid] at hpx

lemma count_insertNewSession (st : AuthState) (uid u : String) (e l n : Nat)
    (d : Option DeviceInfo) :
    SessionRepository.count_active_sessions_per_user
        (insertNewSession st uid e l n d).2 u =
      SessionRepository.count_active_sessions_per_user st u +
        (if uid = u then 1 else 0) := by
  obtain ⟨row, hrow, hrowu, hrowst⟩ := sessions_insertNewSession st uid e l n d
  rw [count_eq, count_eq, hrow, List.filter_append, List.length_append]
  congr 1
  by_cases hu : uid = u
  · rw [if_pos hu]
    simp [List.filter, isActiveFor, hrowu, hrowst, hu]
  · rw [if_neg hu]
    simp [List.filter, isActiveFor, hrowu, hrowst, hu]

end Filmmash

namespace Filmmash

lemma init_session_snd (st : AuthState) (uid : String) (d : Option DeviceInfo) (now : Nat) :
    (SessionService.init_session st uid d now).2 =
      (insertNewSession
        (SessionRepository.free_active_sessions_limit st uid max_active_sessions)
        uid (now + session_default_timedelta) now now d).2 := rfl

lemma count_loginStep (st : AuthState) (u : String) (e : LoginEvent)
    (h : SessionRepository.count_active_sessions_per_user st u ≤ max_active_sessions) :
    SessionRepository.count_active_sessions_per_user (loginStep st e) u
      ≤ max_active_sessions := by
  unfold loginStep
  rw [init_session_snd, count_insertNewSession]
  by_cases hu : e.user_id = u
  · rw [if_pos hu, hu]
    by_cases hfull :
        max_active_sessions ≤ SessionRepository.count_active_sessions_per_user st u
    · have hlt := count_free_active_lt st u max_active_sessions (by decide) hfull
      omega
    · have hle := count_free_active_le st u u max_active_sessions
      omega
  · rw [if_neg hu]
    have hle := count_free_active_le st e.user_id u max_active_sessions
    omega

lemma statusOf_stepOp_not_active (st : AuthState) (op : SessionOp) (sid : String)
    (hop : op.isRefresh = false)
    (h1 : statusOf st sid ≠ some SessionStatus.active)
    (h2 : (statusOf st sid).isSome) :
    statusOf (stepOp st op) sid ≠ some SessionStatus.active ∧
      (statusOf (stepOp st op) sid).isSome := by
  cases op with
  | initSession uid d now =>
    have hsome := statusOf_free_active_isSome st uid max_active_sessions sid h2
    have hna := statusOf_free_active_not_active st uid max_active_sessions sid h1
    have heq : statusOf (stepOp st (SessionOp.initSession uid d now)) sid =
        statusOf (SessionRepository.free_active_sessions_limit st uid
          max_active_sessions) sid := by
      show statusOf (SessionService.init_session st uid d now).2 sid = _
      rw [init_session_snd]
      exact statusOf_insertNewSession _ _ _ _ _ _ _ hsome
    rw [heq]
    exact ⟨hna, hsome⟩
  | refreshOp a b c dd => simp [SessionOp.isRefresh] at hop
  | revokeOp a =>
    exact ⟨statusOf_repoUpdate_not_active st a _ sid (by simp) h1,
      statusOf_repoUpdate_isSome st a _ sid h2⟩
  | markExpired a =>
    exact ⟨statusOf_repoUpdate_not_active st a _ sid (by simp) h1,
      statusOf_repoUpdate_isSome st a _ sid h2⟩
  | markUsed a now =>
    exact ⟨statusOf_repoUpdate_not_active st a _ sid (by simp) h1,
      statusOf_repoUpdate_isSome st a _ sid h2⟩
  | logoutOp a =>
    exact ⟨statusOf_repoUpdate_not_active st a _ sid (by simp) h1,
      statusOf_repoUpdate_isSome st a _ sid h2⟩

end Filmmash

namespace Filmmash

lemma can_login_needs_method (u : User) (hp : u.has_password = false)
    (ho : u.has_oauth = false) : u.can_login = false := by
  unfold User.can_login User.can_local_login User.can_oauth_login
  unfold User.has_password at hp
  unfold User.has_oauth at ho
  cases hpw : u.password_hash.isSome <;>
    cases hprov : u.oauth_provider.isSome <;>
      cases hpid : u.oauth_provider_id.isSome <;>
        simp_all

lemma can_login_gives_method (u : User) (h : u.can_login = true) :
    (u.has_password || u.has_oauth) = true := by
  unfold User.can_login User.can_local_login User.can_oauth_login at h
  unfold User.has_password User.has_oauth
  cases hpw : u.password_hash.isSome <;>
    cases hprov : u.oauth_provider.isSome <;>
      cases hpid : u.oauth_provider_id.isSome <;>
        simp_all

lemma persistUser_id (u : User) (patch : UserPatch) :
    (persistUser u patch).id = u.id := by
  cases patch <;> rfl

lemma mergeUser_id (u : User) (patch : UserPatch) :
    (mergeUser u patch).id = u.id := by
  cases patch <;> rfl

lemma userCreate_duplicate (st : AuthState) (email : String)
    (ph : Option (HashVal String)) (un : Option String)
    (hdup : ∃ u ∈ st.users, u.email = email) :
    UserRepository.create st email ph un = (.error .storageError, st) := by
  unfold UserRepository.create
  rw [if_pos]
  rw [List.any_eq_true]
  obtain ⟨u, hu, he⟩ := hdup
  exact ⟨u, hu, by simp [he]⟩

lemma statusOf_free_active_cases (st : AuthState) (u : String) (limit : Nat)
    (sid : String) :
    statusOf (SessionRepository.free_active_sessions_limit st u limit) sid
        = statusOf st sid ∨
      statusOf (SessionRepository.free_active_sessions_limit st u limit) sid
        = some SessionStatus.revoked := by
  unfold SessionRepository.free_active_sessions_limit
  cases hc : evictionCandidate st u limit [] with
  | none => left; rfl
  | some v =>
    show statusOf (revokeById st v.id) sid = _ ∨ _
    have hmap : statusOf (revokeById st v.id) sid =
        ((st.sessions.find? fun s => decide (s.id = sid)).map
          (fun s => if s.id = v.id then { s with status := SessionStatus.revoked }
            else s)).map Session.status := by
      rw [revokeById_eq_map]
      exact statusOf_map st _ (fun s => by by_cases hid : s.id = v.id <;> simp [hid]) sid
    rw [hmap]
    unfold statusOf
    cases hfind : st.sessions.find? (fun s => decide (s.id = sid)) with
    | none => left; rfl
    | some s =>
      by_cases hid : s.id = v.id
      · right
        simp only [Option.map_some']
        rw [if_pos hid]
      · left
        simp only [Option.map_some']
        rw [if_neg hid]

end Filmmash

namespace Filmmash

/-- C1: with the session freshly created by `init_session` during the
registration scenario (`exRegister`), presenting the exact refresh token
it just issued, together with the session's own recorded device info, is
nonetheless rejected by `refresh_session`: the fresh argon2 salt makes
`generate_token_hash(presented)` differ from the stored salted hash, so
the string comparison fails, the session is revoked and InvalidSession is
raised — contradicting "a correct current token with matching fingerprint
is never rejected". -/
theorem C1_correct_refresh_token_rejected :
    exRegister.2 = exState ∧
    exSession.refresh_token_hash.secret = exRefreshToken ∧
    exSession.device_info = some exDevice ∧
    (AuthService.refresh_session exState exUser exSession exRefreshToken
      (some exDevice) 100).1 = Except.error AuthError.invalidSession ∧
    statusOf (AuthService.refresh_session exState exUser exSession exRefreshToken
      (some exDevice) 100).2 ("session-0") = some SessionStatus.revoked :=
  ⟨rfl, rfl, rfl, rfl, rfl⟩

/-- C2: registration of alice@example.com/alice/secret123 does return two
distinct tokens, but decoding the returned access token one second later
(well inside its 15-minute window) fails as Invalid: `create_token` puts
an `aud` claim into every token while `decode_token` calls `jwt.decode`
without an `audience` argument, so PyJWT rejects every self-issued token
(and the payload carries no "user_id" key for the consumers that read
it). -/
theorem C2_decode_of_issued_access_token_fails :
    exRegister.1 = Except.ok
      { id := "user-0", email := "alice@example.com", username := "alice",
        access_token := exAccessToken, refresh_token := exRefreshToken } ∧
    exAccessToken ≠ exRefreshToken ∧
    exAccessToken.payload.exp = 1000 ∧ (101 : Nat) < 1000 ∧
    decode_access_token exAccessToken 101 = Except.error TokenError.invalid ∧
    JwtPayload.get exAccessToken.payload ("user_id") = none :=
  ⟨rfl, by decide, rfl, by decide, rfl, rfl⟩

/-- C3 counterexample: a revoked (terminal) session whose `expires_at`
has not yet passed is set back to ACTIVE by the `refresh` lifecycle
operation — the claimed terminal-state monotonicity fails for `refresh`. -/
theorem C3_refresh_unrevokes_counterexample :
    statusOf revokedState ("r1") = some SessionStatus.revoked ∧
    statusOf ([SessionOp.refreshOp ("r1")
        (cryptHash 55 (create_refresh_token ("u1") ("r1") 40)) 7 50].foldl
        stepOp revokedState) ("r1") = some SessionStatus.active :=
  ⟨rfl, rfl⟩

/-- C4: with exactly 5 active sessions (last_used_at 1..5), the 6th login
succeeds and keeps the count at 5, but the eviction SELECT
(`ORDER BY last_used_at ASC OFFSET limit-1 LIMIT 1`) revokes s5 — the
most-recently-used session — while s1, the least-recently-used one
(minimum last_used_at), stays active; the claim and the spec require s1
to be the victim. -/
theorem C4_eviction_revokes_most_recently_used :
    SessionRepository.count_active_sessions_per_user fiveActiveState ("u1") = 5 ∧
    (mkSess 1 1).last_used_at = some 1 ∧
    (mkSess 5 5).last_used_at = some 5 ∧
    statusOf (SessionService.init_session fiveActiveState ("u1") none 50).2 ("s5")
      = some SessionStatus.revoked ∧
    statusOf (SessionService.init_session fiveActiveState ("u1") none 50).2 ("s1")
      = some SessionStatus.active ∧
    SessionRepository.count_active_sessions_per_user
      (SessionService.init_session fiveActiveState ("u1") none 50).2 ("u1") = 5 :=
  ⟨rfl, rfl, rfl, rfl, rfl, rfl⟩

/-- C5 counterexample: refreshing a non-expired session (expires_at 100,
now 50) with extension 7 leaves `expires_at` at 100 instead of extending
it to 107 — `SessionService.refresh` never touches `expires_at` and
ignores its `time_delta` argument. -/
theorem C5_extension_ignored_counterexample :
    staleSession.expires_at = 100 ∧
    ((SessionService.refresh staleState staleSession
        (cryptHash 77 (create_refresh_token ("u1") ("t1") 40)) 7 50).1.map
      (fun p => p.1.expires_at)) = Except.ok 100 ∧
    (100 : Nat) ≠ 100 + 7 :=
  ⟨rfl, rfl, by decide⟩

/-- C6 counterexample: registering a second user with alice's email
surfaces the storage-layer error (`UserRepository.create` rolls back and
re-raises the SQLAlchemyError) instead of any named domain error such as
AlreadyExists. -/
theorem C6_duplicate_register_counterexample :
    exState.users.map User.email = ["alice@example.com"] ∧
    (AuthService.register exState ⟨"alice@example.com", "bob", "pw2"⟩ none 200).1
      = Except.error AuthError.storageError ∧
    AuthError.isNamedDomainError AuthError.storageError = false :=
  ⟨rfl, rfl, rfl⟩

/-- C7 counterexample: from 5 active sessions, two concurrent logins for
the same user interleaved under the SKIP LOCKED eviction discipline both
commit and leave the user with 6 active sessions — the cap can be
exceeded by concurrent logins (the spec's own section 5 calls this an
acceptable soft bound). -/
theorem C7_concurrent_logins_exceed_limit :
    SessionRepository.count_active_sessions_per_user fiveActiveState ("u1") = 5 ∧
    SessionRepository.count_active_sessions_per_user
      (twoConcurrentLogins fiveActiveState ("u1") none none 50) ("u1") = 6 ∧
    ¬ 6 ≤ max_active_sessions :=
  ⟨rfl, rfl, by decide⟩

end Filmmash

namespace Filmmash

/-- C3 (amended): once a session's status is terminal (not ACTIVE), no
sequence of initSession / revoke / markExpired / markUsed / logout
operations returns it to ACTIVE — the monotonicity holds for every
lifecycle operation except `refresh`, which (see the counterexample)
reactivates any non-time-expired session. -/
theorem C3_terminal_monotone_without_refresh (st : AuthState) (sid : String)
    (ops : List SessionOp)
    (h1 : statusOf st sid ≠ some SessionStatus.active)
    (h2 : (statusOf st sid).isSome)
    (hops : ∀ op ∈ ops, op.isRefresh = false) :
    statusOf (ops.foldl stepOp st) sid ≠ some SessionStatus.active := by
  induction ops generalizing st with
  | nil => exact h1
  | cons op rest ih =>
    rw [List.foldl_cons]
    have hstep := statusOf_stepOp_not_active st op sid
      (hops op (List.mem_cons_self _ _)) h1 h2
    exact ih (stepOp st op) hstep.1 hstep.2 fun o ho => hops o (List.mem_cons_of_mem _ ho)

theorem C3_terminal_monotone_witness :
    statusOf ([SessionOp.revokeOp ("r1"), SessionOp.markUsed ("r1") 60,
      SessionOp.initSession ("u1") none 70].foldl stepOp revokedState) ("r1")
      ≠ some SessionStatus.active :=
  C3_terminal_monotone_without_refresh revokedState ("r1") _
    (by decide) (by decide) (by decide)

/-- C5 (amended): `SessionService.refresh` raises SessionExpired when
`session.expires_at < now` (store untouched); otherwise it persists the
row with the rotated hash, status ACTIVE and a fresh `last_used_at`, and
leaves `expires_at` unchanged — the extension argument is ignored. -/
theorem C5_refresh_rotates_without_extending (st : AuthState) (s : Session)
    (newHash : HashVal Jwt) (time_delta now : Nat)
    (hstored : st.sessions.find? (fun x => decide (x.id = s.id)) = some s) :
    (s.expires_at < now →
      SessionService.refresh st s newHash time_delta now
        = (Except.error AuthError.sessionExpired, st)) ∧
    (¬ s.expires_at < now →
      (SessionService.refresh st s newHash time_delta now).1.map (fun p => p.1)
          = Except.ok (rotatedSession s newHash now) ∧
        (rotatedSession s newHash now).expires_at = s.expires_at ∧
        (SessionService.refresh st s newHash time_delta now).2.sessions.find?
            (fun x => decide (x.id = s.id))
          = some (rotatedSession s newHash now)) := by
  constructor
  · intro hlt
    unfold SessionService.refresh
    rw [if_pos hlt]
  · intro hge
    have hid : ∀ x : Session,
        (if x.id = s.id then applySessionUpdate (refreshUpdateDTO newHash now) x
          else x).id = x.id := by
      intro x
      by_cases h : x.id = s.id
      · rw [if_pos h, applySessionUpdate_id]
      · rw [if_neg h]
    have hfind : ((st.sessions.map fun x =>
        if x.id = s.id then applySessionUpdate (refreshUpdateDTO newHash now) x
        else x).find? fun x => decide (x.id = s.id))
        = some (rotatedSession s newHash now) := by
      rw [find?_map_key Session.id _ hid s.id, hstored, Option.map_some',
        if_pos (rfl : s.id = s.id)]
      rfl
    have hupd : SessionRepository.update st s.id (refreshUpdateDTO newHash now)
        = (some (rotatedSession s newHash now),
          { st with sessions := st.sessions.map fun x =>
            if x.id = s.id then applySessionUpdate (refreshUpdateDTO newHash now) x
            else x }) := by
      unfold SessionRepository.update
      dsimp only
      rw [hfind]
    refine ⟨?_, rfl, ?_⟩
    · unfold SessionService.refresh
      rw [if_neg hge, hupd]
      rfl
    · show ((SessionService.refresh st s newHash time_delta now).2.sessions.find?
        fun x => decide (x.id = s.id)) = _
      unfold SessionService.refresh
      rw [if_neg hge, hupd]
      exact hfind

theorem C5_refresh_rotates_witness :
    (SessionService.refresh staleState staleSession
        (cryptHash 77 (create_refresh_token ("u1") ("t1") 40)) 7 50).1.map (fun p => p.1)
        = Except.ok (rotatedSession staleSession
            (cryptHash 77 (create_refresh_token ("u1") ("t1") 40)) 50) ∧
      (rotatedSession staleSession
          (cryptHash 77 (create_refresh_token ("u1") ("t1") 40)) 50).expires_at
        = staleSession.expires_at ∧
      (SessionService.refresh staleState staleSession
          (cryptHash 77 (create_refresh_token ("u1") ("t1") 40)) 7 50).2.sessions.find?
          (fun x => decide (x.id = staleSession.id))
        = some (rotatedSession staleSession
            (cryptHash 77 (create_refresh_token ("u1") ("t1") 40)) 50) :=
  (C5_refresh_rotates_without_extending staleState staleSession
    (cryptHash 77 (create_refresh_token ("u1") ("t1") 40)) 7 50 rfl).2 (by decide)

end Filmmash

namespace Filmmash

lemma load_current_leaks_keyError (st : AuthState) (t : Jwt) (now : Nat)
    (hkey : t.key = JWT_SECRET_KEY) (haud : t.payload.aud = none)
    (hexp : now < t.payload.exp) (htype : t.payload.type = TokenType.access.value) :
    AuthService.load_current_user_session st t now = .error .keyError := by
  have hdec : decode_access_token t now = .ok t.payload := by
    unfold decode_access_token decode_token pyjwtDecode
    rw [hkey, if_neg (fun h : JWT_SECRET_KEY ≠ JWT_SECRET_KEY => h rfl),
      if_neg (Nat.not_le_of_lt hexp), haud, if_neg (by simp [audOk])]
    dsimp only
    rw [if_neg (by rw [show JwtPayload.get t.payload ("type") = some t.payload.type
      from rfl, htype]; exact fun h => h rfl)]
  unfold AuthService.load_current_user_session
  rw [hdec]
  rfl

lemma refresh_session_leaks_attributeError (st : AuthState) (user : User)
    (sess : Session) (presented : Jwt) (d : Option DeviceInfo) (now : Nat)
    (hhash : sess.refresh_token_hash = cryptHash st.nextSalt presented) :
    (AuthService.refresh_session st user sess presented d now).1
      = .error .attributeError := by
  unfold AuthService.refresh_session AuthService.validate_refresh_request freshSalt
  dsimp only
  rw [if_neg (fun hne : sess.refresh_token_hash ≠ cryptHash st.nextSalt presented =>
    hne hhash)]

/-- C6 (amended): the orchestrator operations do not uniformly surface
named taxonomy errors; three paths leak unnamed exceptions.  (1) A
unique-constraint violation on register (duplicate email) is rolled back
and re-raised as the storage-layer SQLAlchemyError, not translated into
an AlreadyExists domain error — only the session repository performs
that translation.  (2) `load_current_user_session` reads the payload
keys "user_id"/"session_id", which `create_token` never writes (it
writes "sub"/"sid"), so any correctly signed, unexpired access-type
token without an aud claim decodes successfully and then dies with an
uncaught KeyError (the `except ValueError` around it does not catch
KeyError).  (3) The hash-equal branch of `refresh_session` calls
`Session.matches_device_fingerprint`, a method the entity does not
define, leaking AttributeError. -/
theorem C6_orchestrator_unnamed_error_leaks (st : AuthState)
    (dto : RegisterUserRequest) (d : Option DeviceInfo) (now : Nat)
    (hdup : ∃ u ∈ st.users, u.email = dto.email)
    (t : Jwt) (hkey : t.key = JWT_SECRET_KEY) (haud : t.payload.aud = none)
    (hexp : now < t.payload.exp) (htype : t.payload.type = TokenType.access.value)
    (user : User) (sess : Session) (presented : Jwt) (d2 : Option DeviceInfo)
    (now2 : Nat)
    (hhash : sess.refresh_token_hash = cryptHash st.nextSalt presented) :
    ((AuthService.register st dto d now).1 = Except.error AuthError.storageError ∧
      (AuthService.register st dto d now).2.users = st.users ∧
      AuthError.isNamedDomainError AuthError.storageError = false) ∧
    (AuthService.load_current_user_session st t now
        = Except.error AuthError.keyError ∧
      AuthError.isNamedDomainError AuthError.keyError = false) ∧
    ((AuthService.refresh_session st user sess presented d2 now2).1
        = Except.error AuthError.attributeError ∧
      AuthError.isNamedDomainError AuthError.attributeError = false) := by
  have hc : UserRepository.create { st with nextSalt := st.nextSalt + 1 } dto.email
      (some (cryptHash st.nextSalt dto.password)) (some dto.username)
      = (.error .storageError, { st with nextSalt := st.nextSalt + 1 }) :=
    userCreate_duplicate _ _ _ _ hdup
  refine ⟨⟨?_, ?_, rfl⟩,
    ⟨load_current_leaks_keyError st t now hkey haud hexp htype, rfl⟩,
    ⟨refresh_session_leaks_attributeError st user sess presented d2 now2 hhash, rfl⟩⟩
  · unfold AuthService.register freshSalt
    dsimp only
    rw [hc]
  · unfold AuthService.register freshSalt
    dsimp only
    rw [hc]

theorem C6_unnamed_error_leaks_witness :
    ((AuthService.register exState ⟨"alice@example.com", "dave", "pw4"⟩ none 100).1
        = Except.error AuthError.storageError ∧
      (AuthService.register exState
        ⟨"alice@example.com", "dave", "pw4"⟩ none 100).2.users = exState.users ∧
      AuthError.isNamedDomainError AuthError.storageError = false) ∧
    (AuthService.load_current_user_session exState audlessToken 100
        = Except.error AuthError.keyError ∧
      AuthError.isNamedDomainError AuthError.keyError = false) ∧
    ((AuthService.refresh_session exState exUser collidingSession exRefreshToken
        (some exDevice) 100).1 = Except.error AuthError.attributeError ∧
      AuthError.isNamedDomainError AuthError.attributeError = false) :=
  C6_orchestrator_unnamed_error_leaks exState ⟨"alice@example.com", "dave", "pw4"⟩
    none 100 ⟨exUser, by decide, rfl⟩ audlessToken rfl rfl (by decide) rfl
    exUser collidingSession exRefreshToken (some exDevice) 100 rfl

/-- C7 (amended): after any sequence of sequential logins the number of
active sessions per user stays at or below the cap of 5, provided it
started there; under concurrent logins the SKIP LOCKED eviction can skip
a candidate held by an in-flight transaction, so the cap can be exceeded
(see the counterexample). -/
theorem C7_sequential_login_limit (st : AuthState) (u : String)
    (events : List LoginEvent)
    (h : SessionRepository.count_active_sessions_per_user st u ≤ max_active_sessions) :
    SessionRepository.count_active_sessions_per_user (events.foldl loginStep st) u
      ≤ max_active_sessions := by
  induction events generalizing st with
  | nil => exact h
  | cons e rest ih =>
    rw [List.foldl_cons]
    exact ih (loginStep st e) (count_loginStep st u e h)

theorem C7_sequential_login_limit_witness :
    SessionRepository.count_active_sessions_per_user
      ([⟨"u1", none, 50⟩, ⟨"u1", none, 60⟩, ⟨"u2", none, 70⟩].foldl
        loginStep fiveActiveState) ("u1") ≤ max_active_sessions :=
  C7_sequential_login_limit fiveActiveState ("u1") _ (by decide)

end Filmmash

namespace Filmmash

lemma userRepoUpdate_find (st : AuthState) (id : String) (patch : UserPatch)
    (user : User)
    (hfind : st.users.find? (fun x => decide (x.id = id)) = some user) :
    ((st.users.map fun x => if x.id = id then persistUser x patch else x).find?
        fun x => decide (x.id = id)) = some (persistUser user patch) := by
  have huid : user.id = id := by
    have hp := List.find?_some hfind
    simpa using hp
  rw [find?_map_key User.id _
    (fun x => by
      by_cases h : x.id = id
      · rw [if_pos h, persistUser_id]
      · rw [if_neg h]) id, hfind, Option.map_some', if_pos huid]

lemma persistUser_method (user : User) (patch : UserPatch)
    (hvalid : ∀ dr, patch = UserPatch.replace dr → dr.validated = true)
    (hcl : (mergeUser user patch).can_login = true) :
    ((persistUser user patch).has_password || (persistUser user patch).has_oauth)
      = true := by
  cases patch with
  | update d => exact can_login_gives_method _ hcl
  | replace dr =>
    have hv := hvalid dr rfl
    unfold ReplaceUserDTO.validated at hv
    rw [Bool.and_eq_true] at hv
    exact hv.1

/-- C8: a user update accepted by `UserService.update` persists a user
that still has a password or an OAuth credential; and whenever the merged
result of the update would have neither, the call is rejected with
UserCannotLoseLoginMethod before any persistence and the store is
unchanged.  (A ReplaceUserDTO is assumed to have passed its pydantic
validator, which runs at DTO construction.) -/
theorem C8_update_preserves_login_method (st : AuthState) (id : String)
    (patch : UserPatch)
    (hvalid : ∀ dr, patch = UserPatch.replace dr → dr.validated = true) :
    (∀ u' st', UserService.update st id patch = (Except.ok (some u'), st') →
      (u'.has_password || u'.has_oauth) = true ∧
      st'.users.find? (fun x => decide (x.id = id)) = some u') ∧
    (∀ user, st.users.find? (fun x => decide (x.id = id)) = some user →
      (mergeUser user patch).has_password = false →
      (mergeUser user patch).has_oauth = false →
      UserService.update st id patch
        = (Except.error AuthError.userCannotLoseLoginMethod, st)) := by
  constructor
  · intro u' st' hequ
    unfold UserService.update at hequ
    cases hfind : st.users.find? (fun x => decide (x.id = id)) with
    | none =>
      rw [hfind] at hequ
      rw [Prod.mk.injEq] at hequ
      exact absurd hequ.1 (by simp)
    | some user =>
      rw [hfind] at hequ
      dsimp only at hequ
      cases hcl : (mergeUser user patch).can_login with
      | false =>
        rw [hcl] at hequ
        simp at hequ
      | true =>
        rw [hcl] at hequ
        unfold UserRepository.update at hequ
        dsimp only at hequ
        rw [if_neg (by simp)] at hequ
        rw [Prod.mk.injEq] at hequ
        obtain ⟨h1, h2⟩ := hequ
        rw [Except.ok.injEq] at h1
        rw [userRepoUpdate_find st id patch user hfind] at h1
        cases h1
        constructor
        · exact persistUser_method user patch hvalid hcl
        · rw [← h2]
          show ((st.users.map fun x => if x.id = id then persistUser x patch
            else x).find? fun x => decide (x.id = id)) = _
          rw [userRepoUpdate_find st id patch user hfind]
  · intro user hfind hp ho
    have hcl := can_login_needs_method _ hp ho
    unfold UserService.update
    rw [hfind]
    dsimp only
    rw [hcl]
    rfl

theorem C8_update_witness :
    UserService.update bareState ("bob") (UserPatch.update {})
      = (Except.error AuthError.userCannotLoseLoginMethod, bareState) :=
  (C8_update_preserves_login_method bareState ("bob") (UserPatch.update {})
    (fun _ h => nomatch h)).2 bareUser rfl rfl rfl

end Filmmash

namespace Filmmash

lemma decode_token_create (uid sid : String) (tt : TokenType) (now later : Nat) :
    decode_token (create_token uid sid tt now) later
      = if calculates_expiration_date tt now ≤ later
        then Except.error TokenError.expired
        else Except.error TokenError.invalid := by
  unfold decode_token pyjwtDecode create_token
  dsimp only
  rw [if_neg (fun h : JWT_SECRET_KEY ≠ JWT_SECRET_KEY => h rfl)]
  by_cases hexp : calculates_expiration_date tt now ≤ later
  · rw [if_pos hexp, if_pos hexp]
  · rw [if_neg hexp, if_neg hexp,
      if_pos (by decide)]

/-- C9: a correctly signed token decoded at or after its `exp` claim
fails with the distinguishable Expired outcome (PyJWT checks `exp` before
any other claim); and a not-yet-expired refresh token presented to
`decode_access_token` fails as Invalid, never as Expired. -/
theorem C9_expired_vs_invalid_decode (user_id session_id : String)
    (now later : Nat) :
    ((create_access_token user_id session_id now).payload.exp ≤ later →
      decode_access_token (create_access_token user_id session_id now) later
        = Except.error TokenError.expired) ∧
    (later < (create_refresh_token user_id session_id now).payload.exp →
      decode_access_token (create_refresh_token user_id session_id now) later
        = Except.error TokenError.invalid) := by
  constructor
  · intro hexp
    have hexp' : calculates_expiration_date TokenType.access now ≤ later := hexp
    unfold decode_access_token create_access_token
    rw [decode_token_create, if_pos hexp']
  · intro hlt
    have hlt' : ¬ calculates_expiration_date TokenType.refresh now ≤ later :=
      Nat.not_le_of_lt hlt
    unfold decode_access_token create_refresh_token
    rw [decode_token_create, if_neg hlt']

theorem C9_expired_vs_invalid_witness :
    decode_access_token (create_access_token ("u") ("s") 0) 900
        = Except.error TokenError.expired ∧
      decode_access_token (create_refresh_token ("u") ("s") 0) 900
        = Except.error TokenError.invalid :=
  ⟨(C9_expired_vs_invalid_decode ("u") ("s") 0 900).1 (by decide),
    (C9_expired_vs_invalid_decode ("u") ("s") 0 900).2 (by decide)⟩

/-- C10: the active-session selectors filter on `status == active` and
`user_id` only, so a session whose `expires_at` is already in the past
(hence `is_valid` is false) is still returned by `get_active_by_user_id`,
still counted by `count_active_sessions_per_user`, and still sits in the
ordered candidate pool the eviction SELECT draws from; and the login path
(`init_session`, i.e. eviction plus insert) never sets any session's
status to EXPIRED. -/
theorem C10_active_selection_ignores_expiry (st : AuthState) (u : String)
    (s : Session) (now : Nat)
    (hact : s.status = SessionStatus.active) (hu : s.user_id = u)
    (hexp : s.expires_at < now)
    (hfind : st.sessions.find? (fun x => decide (x.id = s.id)) = some s) :
    s.is_valid now = false ∧
    s ∈ SessionRepository.get_active_by_user_id st u ∧
    1 ≤ SessionRepository.count_active_sessions_per_user st u ∧
    s ∈ sortByLastUsed (st.sessions.filter (isActiveFor u)) ∧
    ∀ w d now2, statusOf (SessionService.init_session st w d now2).2 s.id
      ≠ some SessionStatus.expired := by
  have hs : s ∈ st.sessions := List.mem_of_find?_eq_some hfind
  have hmemf : s ∈ st.sessions.filter (isActiveFor u) :=
    List.mem_filter.mpr ⟨hs, by simp [isActiveFor, hu, hact]⟩
  have hstatus : statusOf st s.id = some SessionStatus.active := by
    unfold statusOf
    rw [hfind, Option.map_some', hact]
  refine ⟨?_, hmemf, List.length_pos_of_mem hmemf, mem_sortByLastUsed.mpr hmemf, ?_⟩
  · simp [Session.is_valid, Session.is_active, Session.is_expired, hexp]
  · intro w d now2
    have hsome : (statusOf st s.id).isSome := by rw [hstatus]; rfl
    have heq : statusOf (SessionService.init_session st w d now2).2 s.id =
        statusOf (SessionRepository.free_active_sessions_limit st w
          max_active_sessions) s.id := by
      show statusOf (SessionService.init_session st w d now2).2 s.id = _
      rw [init_session_snd]
      exact statusOf_insertNewSession _ _ _ _ _ _ _
        (statusOf_free_active_isSome st w max_active_sessions s.id hsome)
    rw [heq]
    rcases statusOf_free_active_cases st w max_active_sessions s.id with hcase | hcase
    · rw [hcase, hstatus]
      simp
    · rw [hcase]
      simp

theorem C10_active_selection_witness :
    staleSession.is_valid 200 = false ∧
    staleSession ∈ SessionRepository.get_active_by_user_id staleState ("u1") ∧
    1 ≤ SessionRepository.count_active_sessions_per_user staleState ("u1") ∧
    staleSession ∈ sortByLastUsed (staleState.sessions.filter (isActiveFor ("u1"))) ∧
    statusOf (SessionService.init_session staleState ("u9") none 300).2 staleSession.id
      ≠ some SessionStatus.expired := by
  have h := C10_active_selection_ignores_expiry staleState ("u1") staleSession 200
    rfl rfl (by decide) rfl
  exact ⟨h.1, h.2.1, h.2.2.1, h.2.2.2.1, h.2.2.2.2 ("u9") none 300⟩

end Filmmash
